import Mathlib

/-!
Verification of the convergence-polling engine of the
`cluster-api-provider-aws` e2e framework
(`vendor/github.com/openshift/cluster-api-actuator-pkg/pkg/e2e/framework/framework.go`).

The per-tick condition functions of `WaitUntilDeleted`,
`ScaleSatefulSetDownToZero` and `ScaleDeploymentDownToZero` are embedded
directly from the Go source.  The generic poll loop (`wait.Poll` from
`k8s.io/apimachinery`) is vendored outside the sources available here, so it
is modelled from the Convergence Poller contract of the specification.  Remote API
calls are modelled as oracles: functions from the tick index to the error
(or result) that call returns on that tick.
-/

namespace Framework

/-- One step of Go `strings.Contains`: does `pat` lead the character list `s`? -/
def leadsWith : List Char → List Char → Bool
  | [], _ => true
  | _ :: _, [] => false
  | a :: as, b :: bs => a == b && leadsWith as bs

/-- Does `pat` occur as a contiguous run inside `s`? -/
def containsChars (pat : List Char) : List Char → Bool
  | [] => leadsWith pat []
  | b :: bs => leadsWith pat (b :: bs) || containsChars pat bs

/-- Go `strings.Contains s pat`: `pat` occurs as a substring of `s`. -/
def stringsContains (s pat : String) : Bool :=
  containsChars pat.toList s.toList

/-- One nanosecond, the unit of Go `time.Duration`. -/
def nanosecond : Nat := 1

/-- Go `time.Second` in nanoseconds. -/
def second : Nat := 1000000000 * nanosecond

/-- Go `time.Minute` in nanoseconds. -/
def minute : Nat := 60 * second

/-- Constant `PollInterval = 5 * time.Second` (framework.go). -/
def PollInterval : Nat := 5 * second

/-- Constant `PoolDeletionTimeout = 1 * time.Minute` (framework.go). -/
def PoolDeletionTimeout : Nat := 1 * minute

/-- Final result of a poll run: `wait.Poll` returns nil (success), the
timeout error, or the error produced by the condition function. -/
inductive PollResult where
  | Success : PollResult
  | TimedOut : PollResult
  | Fatal : String → PollResult
deriving DecidableEq, Repr

/-- Number of ticks the poller executes when no tick converges or fails:
ticks happen at elapsed times `k * interval` for `k * interval < timeout`,
i.e. `⌈timeout / interval⌉` many. -/
def numTicks (interval timeout : Nat) : Nat :=
  (timeout + interval - 1) / interval

/-- Modelled from the spec: the loop body of `wait.Poll`
(`k8s.io/apimachinery/pkg/util/wait`), which is vendored outside the
available sources.  Spec contract: invoke `step` immediately, then once per
interval, until `step` converges (`Success`), returns an error (`Fatal`), or
the time budget is exhausted (`TimedOut`).  `fuel` is the number of ticks
remaining in the budget, `t` the index of the current tick; the second
component records which ticks actually invoked `step`.  The error component
of a step is checked before the done component, as in `wait.Poll`. -/
def pollFrom (step : Nat → Bool × Option String) : Nat → Nat → PollResult × List Nat
  | 0, _ => (PollResult.TimedOut, [])
  | fuel + 1, t =>
    match step t with
    | (_, some e) => (PollResult.Fatal e, [t])
    | (true, none) => (PollResult.Success, [t])
    | (false, none) =>
      let r := pollFrom step fuel (t + 1)
      (r.1, t :: r.2)

/-- Modelled from the spec: `wait.Poll interval timeout step`, starting at
tick 0 with the full tick budget. -/
def poll (interval timeout : Nat) (step : Nat → Bool × Option String) :
    PollResult × List Nat :=
  pollFrom step (numTicks interval timeout) 0

/-- The body of the condition function of `WaitUntilDeleted` (framework.go
lines 254-274), as a function of the errors the `delFnc` and `getFnc`
callbacks would return on this tick.  `none` models a nil Go error. -/
def waitUntilDeletedCond (delErr getErr : Option String) : Bool × Option String :=
  match delErr with
  | some e =>
    if stringsContains e "object is being deleted" then (false, none)
    else if stringsContains e "not found" then (true, none)
    else (false, none)
  | none =>
    match getErr with
    | some e =>
      if stringsContains e "not found" then (true, none) else (false, none)
    | none => (false, none)

/-- In the source, `getFnc` is invoked exactly when `delFnc` returned nil:
the `err != nil` branch returns before reaching the `getFnc()` call. -/
def waitUntilDeletedCallsGet (delErr : Option String) : Bool :=
  delErr.isNone

/-- Function `WaitUntilDeleted delFnc getFnc` (framework.go line 253): polls the
condition with `PollInterval` / `PoolDeletionTimeout`.  The callbacks are
oracles indexed by the tick on which they are invoked. -/
def WaitUntilDeleted (delFnc getFnc : Nat → Option String) : PollResult :=
  (poll PollInterval PoolDeletionTimeout
    (fun t => waitUntilDeletedCond (delFnc t) (getFnc t))).1

/-- The `Replicas *int32` field of `appsv1beta2.StatefulSetSpec` /
`DeploymentSpec` that the scale functions write; the nil pointer is `none`. -/
structure ResourceSpec where
  replicas : Option Int
deriving DecidableEq, Repr

/-- The numeric replica fields of `appsv1beta2.StatefulSetStatus`
(`Replicas`, `ReadyReplicas`, `CurrentReplicas`, `UpdatedReplicas`). -/
structure StatefulSetStatus where
  replicas : Int
  readyReplicas : Int
  currentReplicas : Int
  updatedReplicas : Int
deriving DecidableEq, Repr

/-- The numeric replica fields of `appsv1beta2.DeploymentStatus`
(`Replicas`, `UpdatedReplicas`, `ReadyReplicas`, `AvailableReplicas`,
`UnavailableReplicas`). -/
structure DeploymentStatus where
  replicas : Int
  updatedReplicas : Int
  readyReplicas : Int
  availableReplicas : Int
  unavailableReplicas : Int
deriving DecidableEq, Repr

/-- The caller-visible part of a `*appsv1beta2.StatefulSet` argument:
identity plus the spec field the function writes. -/
structure StatefulSet where
  name : String
  nspace : String
  spec : ResourceSpec
deriving DecidableEq, Repr

/-- The caller-visible part of a `*appsv1beta2.Deployment` argument. -/
structure Deployment where
  name : String
  nspace : String
  spec : ResourceSpec
deriving DecidableEq, Repr

/-- Outcome of one remote `StatefulSets(ns).Get(name, ...)` call: the Go
pair `(result, err)` with `err != nil` as `failure` and otherwise the
status of the returned object. -/
inductive StatefulSetGetOutcome where
  | failure : String → StatefulSetGetOutcome
  | ok : StatefulSetStatus → StatefulSetGetOutcome
deriving DecidableEq, Repr

/-- Outcome of one remote `Deployments(ns).Get(name, ...)` call. -/
inductive DeploymentGetOutcome where
  | failure : String → DeploymentGetOutcome
  | ok : DeploymentStatus → DeploymentGetOutcome
deriving DecidableEq, Repr

/-- Condition body of the first (mutate) poll of `ScaleSatefulSetDownToZero`
(framework.go lines 182-193), as a function of the error the remote
`Update` call returns on this tick. -/
def scaleStatefulSetUpdateCond (updErr : Option String) : Bool × Option String :=
  match updErr with
  | some e => if stringsContains e "not found" then (true, none) else (false, none)
  | none => (true, none)

/-- Condition body of the second (observe) poll of
`ScaleSatefulSetDownToZero` (framework.go lines 199-213): converges on a
"not found" `Get` error or on `result.Status.CurrentReplicas == 0`. -/
def scaleStatefulSetGetCond (g : StatefulSetGetOutcome) : Bool × Option String :=
  match g with
  | StatefulSetGetOutcome.failure e =>
    if stringsContains e "not found" then (true, none) else (false, none)
  | StatefulSetGetOutcome.ok st =>
    if st.currentReplicas == 0 then (true, none) else (false, none)

/-- Condition body of the first (mutate) poll of `ScaleDeploymentDownToZero`
(framework.go lines 219-230). -/
def scaleDeploymentUpdateCond (updErr : Option String) : Bool × Option String :=
  match updErr with
  | some e => if stringsContains e "not found" then (true, none) else (false, none)
  | none => (true, none)

/-- Condition body of the second (observe) poll of
`ScaleDeploymentDownToZero` (framework.go lines 236-250): converges on a
"not found" `Get` error or on `result.Status.AvailableReplicas == 0`. -/
def scaleDeploymentGetCond (g : DeploymentGetOutcome) : Bool × Option String :=
  match g with
  | DeploymentGetOutcome.failure e =>
    if stringsContains e "not found" then (true, none) else (false, none)
  | DeploymentGetOutcome.ok st =>
    if st.availableReplicas == 0 then (true, none) else (false, none)

/-- The write `statefulset.Spec.Replicas = &zero` / `deployment.Spec.Replicas = &zero`:
the in-place write the scale functions perform on the object of the caller
before polling. -/
def setReplicasToZero (spec : ResourceSpec) : ResourceSpec :=
  { spec with replicas := some 0 }

/-- Everything observable about one run of a scale-down function: the
returned error (as a `PollResult`), the object of the caller after the call, and
which ticks issued a remote `Update` and a remote `Get`. -/
structure StatefulSetScaleRun where
  result : PollResult
  finalObj : StatefulSet
  updateTicks : List Nat
  getTicks : List Nat
deriving DecidableEq, Repr

/-- Observable outcome of one run of `ScaleDeploymentDownToZero`. -/
structure DeploymentScaleRun where
  result : PollResult
  finalObj : Deployment
  updateTicks : List Nat
  getTicks : List Nat
deriving DecidableEq, Repr

/-- Function `ScaleSatefulSetDownToZero` (framework.go line 179; the misspelling is
the spelling of the source).  Sets the `Spec.Replicas` field of the caller to zero, runs the mutate
poll; on a non-nil poll error returns it at once (no `Get` is issued),
otherwise runs the observe poll and returns its result.  `upd t` / `get t`
are the outcomes the remote calls would produce on tick `t` of the
respective phase. -/
def ScaleSatefulSetDownToZero (s : StatefulSet) (upd : Nat → Option String)
    (get : Nat → StatefulSetGetOutcome) : StatefulSetScaleRun :=
  match poll PollInterval PoolDeletionTimeout
      (fun t => scaleStatefulSetUpdateCond (upd t)) with
  | (PollResult.Success, ticks1) =>
    ⟨(poll PollInterval PoolDeletionTimeout
        (fun t => scaleStatefulSetGetCond (get t))).1,
      { s with spec := setReplicasToZero s.spec }, ticks1,
      (poll PollInterval PoolDeletionTimeout
        (fun t => scaleStatefulSetGetCond (get t))).2⟩
  | (r1, ticks1) => ⟨r1, { s with spec := setReplicasToZero s.spec }, ticks1, []⟩

/-- Function `ScaleDeploymentDownToZero` (framework.go line 216), same shape as the
StatefulSet variant but reading `Status.AvailableReplicas` in phase two. -/
def ScaleDeploymentDownToZero (d : Deployment) (upd : Nat → Option String)
    (get : Nat → DeploymentGetOutcome) : DeploymentScaleRun :=
  match poll PollInterval PoolDeletionTimeout
      (fun t => scaleDeploymentUpdateCond (upd t)) with
  | (PollResult.Success, ticks1) =>
    ⟨(poll PollInterval PoolDeletionTimeout
        (fun t => scaleDeploymentGetCond (get t))).1,
      { d with spec := setReplicasToZero d.spec }, ticks1,
      (poll PollInterval PoolDeletionTimeout
        (fun t => scaleDeploymentGetCond (get t))).2⟩
  | (r1, ticks1) => ⟨r1, { d with spec := setReplicasToZero d.spec }, ticks1, []⟩

/-! ## Helper lemmas -/

/-- A poll whose step never reports an error can only end in `Success` or
`TimedOut`, whatever the fuel and start tick. -/
theorem pollFrom_result_no_error (step : Nat → Bool × Option String)
    (h : ∀ t, (step t).2 = none) :
    ∀ fuel t, (pollFrom step fuel t).1 = PollResult.Success ∨
      (pollFrom step fuel t).1 = PollResult.TimedOut := by
  intro fuel
  induction fuel with
  | zero => intro t; exact Or.inr rfl
  | succ n ih =>
    intro t
    have h2 := h t
    rcases hs : step t with ⟨b, e⟩
    rw [hs] at h2
    simp only at h2
    subst h2
    cases b
    · simpa [pollFrom, hs] using ih (t + 1)
    · simp [pollFrom, hs]

/-- The delete-wait condition function never returns a non-nil error. -/
theorem waitUntilDeletedCond_no_error (delErr getErr : Option String) :
    (waitUntilDeletedCond delErr getErr).2 = none := by
  cases delErr with
  | some e =>
    simp only [waitUntilDeletedCond]
    split
    · rfl
    · split <;> rfl
  | none =>
    cases getErr with
    | some e =>
      simp only [waitUntilDeletedCond]
      split <;> rfl
    | none => rfl

/-! ## Claims about `WaitUntilDeleted` -/

/-- C1: for every sequence of errors returned by the delete and get
callbacks, the per-tick condition of `WaitUntilDeleted` never returns a
non-nil error, so the run ends in `Success` or in the `TimedOut` of the poller,
never in a `Fatal` result caused by an ordinary API error. -/
theorem waitUntilDeleted_never_fatal (delFnc getFnc : Nat → Option String) :
    (∀ t, (waitUntilDeletedCond (delFnc t) (getFnc t)).2 = none) ∧
    (WaitUntilDeleted delFnc getFnc = PollResult.Success ∨
      WaitUntilDeleted delFnc getFnc = PollResult.TimedOut) :=
  ⟨fun t => waitUntilDeletedCond_no_error (delFnc t) (getFnc t),
    pollFrom_result_no_error _
      (fun t => waitUntilDeletedCond_no_error (delFnc t) (getFnc t)) _ _⟩

/-- C2: when the delete callback errors on a tick of `WaitUntilDeleted`:
an "object is being deleted" message gives `Pending` (retry, `getFnc` not
invoked); otherwise a "not found" message gives `Converged`; any other
message gives `Pending`.  `(false, none)` is the pending tick value and
`(true, none)` the converged one. -/
theorem waitUntilDeleted_delete_error_classification (e : String)
    (getErr : Option String) :
    (stringsContains e "object is being deleted" = true →
      waitUntilDeletedCond (some e) getErr = (false, none) ∧
      waitUntilDeletedCallsGet (some e) = false) ∧
    (stringsContains e "object is being deleted" = false →
      stringsContains e "not found" = true →
      waitUntilDeletedCond (some e) getErr = (true, none)) ∧
    (stringsContains e "object is being deleted" = false →
      stringsContains e "not found" = false →
      waitUntilDeletedCond (some e) getErr = (false, none)) := by
  refine ⟨fun h1 => ⟨?_, rfl⟩, fun h1 h2 => ?_, fun h1 h2 => ?_⟩ <;>
    simp [waitUntilDeletedCond, h1]
  · exact h2
  · exact h2

/-- Witness for C2: each of the three delete-error classes at a concrete
message. -/
theorem waitUntilDeleted_delete_error_classification_witness :
    waitUntilDeletedCond (some "the object is being deleted") none = (false, none) ∧
    waitUntilDeletedCond (some "machines not found") none = (true, none) ∧
    waitUntilDeletedCond (some "connection refused") none = (false, none) :=
  ⟨((waitUntilDeleted_delete_error_classification
      "the object is being deleted" none).1 (by decide)).1,
    (waitUntilDeleted_delete_error_classification
      "machines not found" none).2.1 (by decide) (by decide),
    (waitUntilDeleted_delete_error_classification
      "connection refused" none).2.2 (by decide) (by decide)⟩

/-- C3: on a tick of `WaitUntilDeleted` where the delete callback returns
nil, the get callback is invoked; the tick converges exactly when `getFnc`
returns an error containing "not found", and is pending (with no error) in
every other case. -/
theorem waitUntilDeleted_delete_nil_tick (getErr : Option String) :
    waitUntilDeletedCallsGet none = true ∧
    (waitUntilDeletedCond none getErr).2 = none ∧
    ((waitUntilDeletedCond none getErr).1 = true ↔
      ∃ e, getErr = some e ∧ stringsContains e "not found" = true) := by
  refine ⟨rfl, waitUntilDeletedCond_no_error none getErr, ?_⟩
  cases getErr with
  | none => simp [waitUntilDeletedCond]
  | some e =>
    by_cases h : stringsContains e "not found" = true
    · simp [waitUntilDeletedCond, h]
    · simp only [Bool.not_eq_true] at h
      simp [waitUntilDeletedCond, h]

/-- C10: the "object is being deleted" check precedes the "not found"
check: a delete error whose message contains both substrings is classified
`Pending`, not `Converged`. -/
theorem waitUntilDeleted_being_deleted_precedence (e : String)
    (getErr : Option String)
    (h1 : stringsContains e "object is being deleted" = true)
    (h2 : stringsContains e "not found" = true) :
    waitUntilDeletedCond (some e) getErr = (false, none) := by
  simp [waitUntilDeletedCond, h1]

/-- Witness for C10: a concrete message containing both substrings is
classified `Pending`. -/
theorem waitUntilDeleted_being_deleted_precedence_witness :
    stringsContains "the object is being deleted: not found" "object is being deleted" = true ∧
    stringsContains "the object is being deleted: not found" "not found" = true ∧
    waitUntilDeletedCond (some "the object is being deleted: not found") none = (false, none) :=
  ⟨by decide, by decide,
    waitUntilDeleted_being_deleted_precedence _ none (by decide) (by decide)⟩

/-! ## Helper lemmas for the scale-down operations -/

/-- A poll whose very first tick converges returns `Success` immediately,
with tick `t` the only tick executed. -/
theorem pollFrom_converges_first (step : Nat → Bool × Option String)
    (fuel t : Nat) (hf : 0 < fuel) (hs : step t = (true, none)) :
    pollFrom step fuel t = (PollResult.Success, [t]) := by
  cases fuel with
  | zero => omega
  | succ n => simp [pollFrom, hs]

/-- The mutate condition of the StatefulSet variant never errors. -/
theorem scaleStatefulSetUpdateCond_no_error (updErr : Option String) :
    (scaleStatefulSetUpdateCond updErr).2 = none := by
  cases updErr with
  | some e =>
    simp only [scaleStatefulSetUpdateCond]
    split <;> rfl
  | none => rfl

/-- The mutate condition of the Deployment variant never errors. -/
theorem scaleDeploymentUpdateCond_no_error (updErr : Option String) :
    (scaleDeploymentUpdateCond updErr).2 = none := by
  cases updErr with
  | some e =>
    simp only [scaleDeploymentUpdateCond]
    split <;> rfl
  | none => rfl

/-- The observe condition of the StatefulSet variant never errors. -/
theorem scaleStatefulSetGetCond_no_error (g : StatefulSetGetOutcome) :
    (scaleStatefulSetGetCond g).2 = none := by
  cases g <;> simp only [scaleStatefulSetGetCond] <;> split <;> rfl

/-- The observe condition of the Deployment variant never errors. -/
theorem scaleDeploymentGetCond_no_error (g : DeploymentGetOutcome) :
    (scaleDeploymentGetCond g).2 = none := by
  cases g <;> simp only [scaleDeploymentGetCond] <;> split <;> rfl

/-- The object the StatefulSet scale-down leaves with the caller, whatever
the poll outcomes: the input with `Spec.Replicas` set to zero. -/
theorem scaleSatefulSet_finalObj (s : StatefulSet) (upd : Nat → Option String)
    (get : Nat → StatefulSetGetOutcome) :
    (ScaleSatefulSetDownToZero s upd get).finalObj =
      { s with spec := setReplicasToZero s.spec } := by
  unfold ScaleSatefulSetDownToZero
  split <;> rfl

/-- The object the Deployment scale-down leaves with the caller. -/
theorem scaleDeployment_finalObj (d : Deployment) (upd : Nat → Option String)
    (get : Nat → DeploymentGetOutcome) :
    (ScaleDeploymentDownToZero d upd get).finalObj =
      { d with spec := setReplicasToZero d.spec } := by
  unfold ScaleDeploymentDownToZero
  split <;> rfl

/-! ## Claims about the scale-down operations -/

/-- C5: in both scale-down variants the observe poll starts only after the
mutate poll reported success: when the mutate poll does not return
`Success`, its result is returned to the caller unchanged and no `Get` is
ever issued; conversely a nonempty list of issued `Get` ticks implies the
mutate poll succeeded. -/
theorem scaleToZero_phases_sequential (s : StatefulSet) (d : Deployment)
    (upd updD : Nat → Option String) (get : Nat → StatefulSetGetOutcome)
    (getD : Nat → DeploymentGetOutcome) :
    ((poll PollInterval PoolDeletionTimeout
        (fun t => scaleStatefulSetUpdateCond (upd t))).1 ≠ PollResult.Success →
      (ScaleSatefulSetDownToZero s upd get).result =
        (poll PollInterval PoolDeletionTimeout
          (fun t => scaleStatefulSetUpdateCond (upd t))).1 ∧
      (ScaleSatefulSetDownToZero s upd get).getTicks = []) ∧
    ((ScaleSatefulSetDownToZero s upd get).getTicks ≠ [] →
      (poll PollInterval PoolDeletionTimeout
        (fun t => scaleStatefulSetUpdateCond (upd t))).1 = PollResult.Success) ∧
    ((poll PollInterval PoolDeletionTimeout
        (fun t => scaleDeploymentUpdateCond (updD t))).1 ≠ PollResult.Success →
      (ScaleDeploymentDownToZero d updD getD).result =
        (poll PollInterval PoolDeletionTimeout
          (fun t => scaleDeploymentUpdateCond (updD t))).1 ∧
      (ScaleDeploymentDownToZero d updD getD).getTicks = []) ∧
    ((ScaleDeploymentDownToZero d updD getD).getTicks ≠ [] →
      (poll PollInterval PoolDeletionTimeout
        (fun t => scaleDeploymentUpdateCond (updD t))).1 = PollResult.Success) := by
  rcases hp : poll PollInterval PoolDeletionTimeout
      (fun t => scaleStatefulSetUpdateCond (upd t)) with ⟨r1, ticks1⟩
  rcases hpD : poll PollInterval PoolDeletionTimeout
      (fun t => scaleDeploymentUpdateCond (updD t)) with ⟨r1D, ticks1D⟩
  unfold ScaleSatefulSetDownToZero ScaleDeploymentDownToZero
  rw [hp, hpD]
  cases r1 <;> cases r1D <;> simp

/-- Witness for C5: an update call that keeps failing with a non-"not
found" error makes the mutate poll time out, and then no `Get` tick is
issued. -/
theorem scaleToZero_phases_sequential_witness :
    (ScaleSatefulSetDownToZero ⟨"set", "ns", ⟨some 3⟩⟩
      (fun _ => some "connection refused")
      (fun _ => StatefulSetGetOutcome.ok ⟨0, 0, 0, 0⟩)).getTicks = [] :=
  ((scaleToZero_phases_sequential ⟨"set", "ns", ⟨some 3⟩⟩ ⟨"dep", "ns", ⟨some 3⟩⟩
      (fun _ => some "connection refused") (fun _ => none)
      (fun _ => StatefulSetGetOutcome.ok ⟨0, 0, 0, 0⟩)
      (fun _ => DeploymentGetOutcome.ok ⟨0, 0, 0, 0, 0⟩)).1 (by decide)).2

/-- C6: the mutate-phase tick of both variants, after the desired replica
count is set to zero, classifies the update outcome as: nil error means the
tick converges; a "not found" error also converges; any other error leaves
the tick pending; and the condition never returns an error, so the mutate
poll of either variant can only end in `Success` or `TimedOut`, never
`Fatal`. -/
theorem scaleToZero_update_error_classification (updErr : Option String) :
    (scaleStatefulSetUpdateCond updErr).2 = none ∧
    (scaleDeploymentUpdateCond updErr).2 = none ∧
    (updErr = none →
      scaleStatefulSetUpdateCond updErr = (true, none) ∧
      scaleDeploymentUpdateCond updErr = (true, none)) ∧
    (∀ e, updErr = some e → stringsContains e "not found" = true →
      scaleStatefulSetUpdateCond updErr = (true, none) ∧
      scaleDeploymentUpdateCond updErr = (true, none)) ∧
    (∀ e, updErr = some e → stringsContains e "not found" = false →
      scaleStatefulSetUpdateCond updErr = (false, none) ∧
      scaleDeploymentUpdateCond updErr = (false, none)) ∧
    (∀ upd : Nat → Option String,
      ((poll PollInterval PoolDeletionTimeout
          (fun t => scaleStatefulSetUpdateCond (upd t))).1 = PollResult.Success ∨
        (poll PollInterval PoolDeletionTimeout
          (fun t => scaleStatefulSetUpdateCond (upd t))).1 = PollResult.TimedOut) ∧
      ((poll PollInterval PoolDeletionTimeout
          (fun t => scaleDeploymentUpdateCond (upd t))).1 = PollResult.Success ∨
        (poll PollInterval PoolDeletionTimeout
          (fun t => scaleDeploymentUpdateCond (upd t))).1 = PollResult.TimedOut)) := by
  refine ⟨scaleStatefulSetUpdateCond_no_error updErr,
    scaleDeploymentUpdateCond_no_error updErr, ?_, ?_, ?_, ?_⟩
  · rintro rfl
    exact ⟨rfl, rfl⟩
  · rintro e rfl hc
    constructor <;> simp [scaleStatefulSetUpdateCond, scaleDeploymentUpdateCond, hc]
  · rintro e rfl hc
    constructor <;> simp [scaleStatefulSetUpdateCond, scaleDeploymentUpdateCond, hc]
  · intro upd
    exact ⟨pollFrom_result_no_error _
        (fun t => scaleStatefulSetUpdateCond_no_error (upd t)) _ _,
      pollFrom_result_no_error _
        (fun t => scaleDeploymentUpdateCond_no_error (upd t)) _ _⟩

/-- Witness for C6: the three update-outcome classes at concrete inputs. -/
theorem scaleToZero_update_error_classification_witness :
    (scaleStatefulSetUpdateCond none = (true, none) ∧
      scaleDeploymentUpdateCond none = (true, none)) ∧
    scaleStatefulSetUpdateCond (some "statefulsets \"set\" not found") = (true, none) ∧
    scaleDeploymentUpdateCond (some "connection refused") = (false, none) :=
  ⟨(scaleToZero_update_error_classification none).2.2.1 rfl,
    ((scaleToZero_update_error_classification
      (some "statefulsets \"set\" not found")).2.2.2.1 _ rfl (by decide)).1,
    ((scaleToZero_update_error_classification
      (some "connection refused")).2.2.2.2.1 _ rfl (by decide)).2⟩

/-- C7 counterexample: the "observed count" is not the same status field in
the two variants.  The StatefulSet observe tick reads
`Status.CurrentReplicas` and converges here although every status field the
two types share by name (`Replicas`, `ReadyReplicas`, `UpdatedReplicas`) is
3; the Deployment observe tick reads `Status.AvailableReplicas` and stays
pending here although every shared-name field is 0. -/
theorem scaleToZero_observe_field_counterexample :
    scaleStatefulSetGetCond
      (StatefulSetGetOutcome.ok ⟨3, 3, 0, 3⟩) = (true, none) ∧
    scaleDeploymentGetCond
      (DeploymentGetOutcome.ok ⟨0, 0, 0, 1, 0⟩) = (false, none) := by
  constructor <;> rfl

/-- C7 amended: each observe-phase tick classifies the read as: a "not
found" error converges; a zero observed count converges; any other error
or a nonzero observed count is pending (and the condition never errors) —
where the observed count is `Status.CurrentReplicas` in the StatefulSet
variant and `Status.AvailableReplicas` in the Deployment variant, two
different status fields. -/
theorem scaleToZero_observe_classification (gs : StatefulSetGetOutcome)
    (gd : DeploymentGetOutcome) :
    (scaleStatefulSetGetCond gs).2 = none ∧
    (scaleDeploymentGetCond gd).2 = none ∧
    (∀ e, gs = StatefulSetGetOutcome.failure e →
      stringsContains e "not found" = true →
      scaleStatefulSetGetCond gs = (true, none)) ∧
    (∀ st, gs = StatefulSetGetOutcome.ok st → st.currentReplicas = 0 →
      scaleStatefulSetGetCond gs = (true, none)) ∧
    (∀ e, gs = StatefulSetGetOutcome.failure e →
      stringsContains e "not found" = false →
      scaleStatefulSetGetCond gs = (false, none)) ∧
    (∀ st, gs = StatefulSetGetOutcome.ok st → st.currentReplicas ≠ 0 →
      scaleStatefulSetGetCond gs = (false, none)) ∧
    (∀ e, gd = DeploymentGetOutcome.failure e →
      stringsContains e "not found" = true →
      scaleDeploymentGetCond gd = (true, none)) ∧
    (∀ st, gd = DeploymentGetOutcome.ok st → st.availableReplicas = 0 →
      scaleDeploymentGetCond gd = (true, none)) ∧
    (∀ e, gd = DeploymentGetOutcome.failure e →
      stringsContains e "not found" = false →
      scaleDeploymentGetCond gd = (false, none)) ∧
    (∀ st, gd = DeploymentGetOutcome.ok st → st.availableReplicas ≠ 0 →
      scaleDeploymentGetCond gd = (false, none)) := by
  refine ⟨scaleStatefulSetGetCond_no_error gs,
    scaleDeploymentGetCond_no_error gd, ?_, ?_, ?_, ?_, ?_, ?_, ?_, ?_⟩ <;>
    rintro x rfl hx <;>
    simp [scaleStatefulSetGetCond, scaleDeploymentGetCond, hx]

/-- Witness for the amended C7: one input of each class per variant. -/
theorem scaleToZero_observe_classification_witness :
    scaleStatefulSetGetCond
      (StatefulSetGetOutcome.failure "statefulsets \"set\" not found") = (true, none) ∧
    scaleStatefulSetGetCond (StatefulSetGetOutcome.ok ⟨5, 5, 5, 5⟩) = (false, none) ∧
    scaleDeploymentGetCond (DeploymentGetOutcome.ok ⟨5, 5, 5, 0, 5⟩) = (true, none) ∧
    scaleDeploymentGetCond (DeploymentGetOutcome.failure "connection refused") = (false, none) :=
  ⟨(scaleToZero_observe_classification
      (StatefulSetGetOutcome.failure "statefulsets \"set\" not found")
      (DeploymentGetOutcome.ok ⟨0, 0, 0, 0, 0⟩)).2.2.1 _ rfl (by decide),
    (scaleToZero_observe_classification (StatefulSetGetOutcome.ok ⟨5, 5, 5, 5⟩)
      (DeploymentGetOutcome.ok ⟨0, 0, 0, 0, 0⟩)).2.2.2.2.2.1 _ rfl (by decide),
    (scaleToZero_observe_classification (StatefulSetGetOutcome.ok ⟨0, 0, 0, 0⟩)
      (DeploymentGetOutcome.ok ⟨5, 5, 5, 0, 5⟩)).2.2.2.2.2.2.2.1 _ rfl (by decide),
    (scaleToZero_observe_classification (StatefulSetGetOutcome.ok ⟨0, 0, 0, 0⟩)
      (DeploymentGetOutcome.failure "connection refused")).2.2.2.2.2.2.2.2.1 _ rfl
      (by decide)⟩

/-- C8: against an absent resource — every update and every get call
returns an error containing "not found" — both scale-down variants return
`Success`, the mutate poll converging on its very first tick (tick 0 is the
only update issued) and the observe poll likewise. -/
theorem scaleToZero_absent_resource (s : StatefulSet) (d : Deployment)
    (upd updD : Nat → Option String) (get : Nat → StatefulSetGetOutcome)
    (getD : Nat → DeploymentGetOutcome)
    (hu : ∀ t, ∃ e, upd t = some e ∧ stringsContains e "not found" = true)
    (hg : ∀ t, ∃ e, get t = StatefulSetGetOutcome.failure e ∧
      stringsContains e "not found" = true)
    (huD : ∀ t, ∃ e, updD t = some e ∧ stringsContains e "not found" = true)
    (hgD : ∀ t, ∃ e, getD t = DeploymentGetOutcome.failure e ∧
      stringsContains e "not found" = true) :
    (ScaleSatefulSetDownToZero s upd get).result = PollResult.Success ∧
    (ScaleSatefulSetDownToZero s upd get).updateTicks = [0] ∧
    (ScaleSatefulSetDownToZero s upd get).getTicks = [0] ∧
    (ScaleDeploymentDownToZero d updD getD).result = PollResult.Success ∧
    (ScaleDeploymentDownToZero d updD getD).updateTicks = [0] ∧
    (ScaleDeploymentDownToZero d updD getD).getTicks = [0] := by
  obtain ⟨e1, he1, hc1⟩ := hu 0
  obtain ⟨e2, he2, hc2⟩ := hg 0
  obtain ⟨e3, he3, hc3⟩ := huD 0
  obtain ⟨e4, he4, hc4⟩ := hgD 0
  have hp1 : poll PollInterval PoolDeletionTimeout
      (fun t => scaleStatefulSetUpdateCond (upd t)) = (PollResult.Success, [0]) :=
    pollFrom_converges_first _ _ 0 (by decide)
      (by simp [he1, scaleStatefulSetUpdateCond, hc1])
  have hp2 : poll PollInterval PoolDeletionTimeout
      (fun t => scaleStatefulSetGetCond (get t)) = (PollResult.Success, [0]) :=
    pollFrom_converges_first _ _ 0 (by decide)
      (by simp [he2, scaleStatefulSetGetCond, hc2])
  have hp3 : poll PollInterval PoolDeletionTimeout
      (fun t => scaleDeploymentUpdateCond (updD t)) = (PollResult.Success, [0]) :=
    pollFrom_converges_first _ _ 0 (by decide)
      (by simp [he3, scaleDeploymentUpdateCond, hc3])
  have hp4 : poll PollInterval PoolDeletionTimeout
      (fun t => scaleDeploymentGetCond (getD t)) = (PollResult.Success, [0]) :=
    pollFrom_converges_first _ _ 0 (by decide)
      (by simp [he4, scaleDeploymentGetCond, hc4])
  unfold ScaleSatefulSetDownToZero ScaleDeploymentDownToZero
  rw [hp1, hp3]
  simp [hp2, hp4]

/-- Witness for C8: a resource that never exists is scaled down
successfully at once in both variants. -/
theorem scaleToZero_absent_resource_witness :
    (ScaleSatefulSetDownToZero ⟨"set", "ns", ⟨none⟩⟩
        (fun _ => some "statefulsets \"set\" not found")
        (fun _ => StatefulSetGetOutcome.failure "statefulsets \"set\" not found")).result =
      PollResult.Success ∧
    (ScaleDeploymentDownToZero ⟨"dep", "ns", ⟨none⟩⟩
        (fun _ => some "deployments \"dep\" not found")
        (fun _ => DeploymentGetOutcome.failure "deployments \"dep\" not found")).result =
      PollResult.Success := by
  have h := scaleToZero_absent_resource ⟨"set", "ns", ⟨none⟩⟩ ⟨"dep", "ns", ⟨none⟩⟩
    (fun _ => some "statefulsets \"set\" not found")
    (fun _ => some "deployments \"dep\" not found")
    (fun _ => StatefulSetGetOutcome.failure "statefulsets \"set\" not found")
    (fun _ => DeploymentGetOutcome.failure "deployments \"dep\" not found")
    (fun _ => ⟨_, rfl, by decide⟩) (fun _ => ⟨_, rfl, by decide⟩)
    (fun _ => ⟨_, rfl, by decide⟩) (fun _ => ⟨_, rfl, by decide⟩)
  exact ⟨h.1, h.2.2.2.1⟩

/-- C9 counterexample: the resource object of the caller is not treated as
read-only: `ScaleSatefulSetDownToZero` writes `Spec.Replicas = &zero` on
the StatefulSet of the caller, so an object passed in with 3 desired replicas
does not come back unchanged. -/
theorem scaleToZero_input_mutated_counterexample :
    (ScaleSatefulSetDownToZero ⟨"set", "ns", ⟨some 3⟩⟩ (fun _ => none)
        (fun _ => StatefulSetGetOutcome.ok ⟨0, 0, 0, 0⟩)).finalObj ≠
      ⟨"set", "ns", ⟨some 3⟩⟩ := by
  decide

/-- C9 amended: the poll spec and the oracles are read-only, and the only
caller-visible mutation either variant performs on its input object is
setting `Spec.Replicas` to zero: whatever the remote outcomes, the final
object afterwards is exactly the input with `Spec.Replicas = 0`; every
other part of it (name, namespace) is unchanged. -/
theorem scaleToZero_frame (s : StatefulSet) (d : Deployment)
    (upd updD : Nat → Option String) (get : Nat → StatefulSetGetOutcome)
    (getD : Nat → DeploymentGetOutcome) :
    (ScaleSatefulSetDownToZero s upd get).finalObj =
      { s with spec := setReplicasToZero s.spec } ∧
    (ScaleSatefulSetDownToZero s upd get).finalObj.name = s.name ∧
    (ScaleSatefulSetDownToZero s upd get).finalObj.nspace = s.nspace ∧
    (ScaleSatefulSetDownToZero s upd get).finalObj.spec.replicas = some 0 ∧
    (ScaleDeploymentDownToZero d updD getD).finalObj =
      { d with spec := setReplicasToZero d.spec } ∧
    (ScaleDeploymentDownToZero d updD getD).finalObj.name = d.name ∧
    (ScaleDeploymentDownToZero d updD getD).finalObj.nspace = d.nspace ∧
    (ScaleDeploymentDownToZero d updD getD).finalObj.spec.replicas = some 0 := by
  have h1 := scaleSatefulSet_finalObj s upd get
  have h2 := scaleDeployment_finalObj d updD getD
  refine ⟨h1, ?_, ?_, ?_, h2, ?_, ?_, ?_⟩ <;>
    simp [h1, h2, setReplicasToZero]

/-! ## Claim about the tick schedule of the poller -/

/-- A tick index is within the budget exactly when it falls strictly
before the timeout: `k < ⌈timeout/interval⌉ ↔ k * interval < timeout`. -/
theorem lt_numTicks_iff (interval timeout k : Nat) (hi : 0 < interval) :
    k < numTicks interval timeout ↔ k * interval < timeout := by
  unfold numTicks
  rw [Nat.lt_iff_add_one_le, Nat.le_div_iff_mul_le hi, Nat.add_mul, Nat.one_mul]
  generalize k * interval = K
  omega

/-- The tick after the last budgeted one falls at or beyond the timeout. -/
theorem timeout_le_numTicks_mul (interval timeout : Nat) (hi : 0 < interval) :
    timeout ≤ numTicks interval timeout * interval := by
  by_contra h
  exact absurd
    ((lt_numTicks_iff interval timeout _ hi).mpr (Nat.lt_of_not_le h))
    (Nat.lt_irrefl _)

/-- Controlled unfolding of a pending tick: with fuel left, a pending step
recurses at the next tick and records the current one. -/
theorem pollFrom_pending_step (step : Nat → Bool × Option String)
    (fuel t : Nat) (hs : step t = (false, none)) :
    pollFrom step (fuel + 1) t =
      ((pollFrom step fuel (t + 1)).1, t :: (pollFrom step fuel (t + 1)).2) := by
  simp [pollFrom, hs]

/-- Structure of a `pollFrom` run started at tick `t` with positive fuel:
some `m ≥ 1` consecutive ticks `t, t+1, ..., t+m-1` run; every tick before
the last is pending; the run times out exactly by exhausting the fuel on a
pending last tick, and otherwise the last tick errored or converged. -/
theorem pollFrom_schedule (step : Nat → Bool × Option String) :
    ∀ fuel t, 0 < fuel →
      ∃ m, 0 < m ∧ m ≤ fuel ∧
        (pollFrom step fuel t).2 = (List.range m).map (fun k => t + k) ∧
        (∀ k, k + 1 < m → step (t + k) = (false, none)) ∧
        ((pollFrom step fuel t).1 = PollResult.TimedOut →
          m = fuel ∧ step (t + (m - 1)) = (false, none)) ∧
        ((pollFrom step fuel t).1 ≠ PollResult.TimedOut →
          ((step (t + (m - 1))).2 ≠ none ∨ (step (t + (m - 1))).1 = true)) := by
  intro fuel
  induction fuel with
  | zero => intro t h; omega
  | succ n ih =>
    intro t _
    rcases hs : step t with ⟨b, e⟩
    cases e with
    | some msg =>
      refine ⟨1, Nat.one_pos, by omega,
        by simp [pollFrom, hs, List.range_succ], ?_, ?_, ?_⟩
      · intro k hk; omega
      · intro hres
        exfalso
        simp [pollFrom, hs] at hres
      · intro _
        left
        simp [hs]
    | none =>
      cases b with
      | true =>
        refine ⟨1, Nat.one_pos, by omega,
          by simp [pollFrom, hs, List.range_succ], ?_, ?_, ?_⟩
        · intro k hk; omega
        · intro hres
          exfalso
          simp [pollFrom, hs] at hres
        · intro _
          right
          simp [hs]
      | false =>
        cases n with
        | zero =>
          refine ⟨1, Nat.one_pos, Nat.le_refl 1,
            by simp [pollFrom, hs, List.range_succ], ?_, ?_, ?_⟩
          · intro k hk; omega
          · intro _
            exact ⟨rfl, by simpa using hs⟩
          · intro hres
            exfalso
            exact hres (by simp [pollFrom, hs])
        | succ n2 =>
          obtain ⟨m, hm0, hmle, htr, hpend, hto, hnto⟩ :=
            ih (t + 1) (Nat.succ_pos n2)
          have hfun : ((fun k => t + k) ∘ Nat.succ) = fun k => (t + 1) + k := by
            funext k
            simp [Function.comp]
            omega
          have hunf := pollFrom_pending_step step (n2 + 1) t hs
          refine ⟨m + 1, Nat.succ_pos m, by omega, ?_, ?_, ?_, ?_⟩
          · rw [hunf, List.range_succ_eq_map, List.map_cons, List.map_map, hfun]
            simp [htr]
          · intro k hk
            cases k with
            | zero => simpa using hs
            | succ j =>
              have heq : t + (j + 1) = (t + 1) + j := by omega
              rw [heq]
              exact hpend j (by omega)
          · intro hres
            rw [hunf] at hres
            obtain ⟨hm, hstep⟩ := hto hres
            have heq : t + (m + 1 - 1) = (t + 1) + (m - 1) := by omega
            exact ⟨by omega, by rw [heq]; exact hstep⟩
          · intro hres
            rw [hunf] at hres
            have hres2 : (pollFrom step (n2 + 1) (t + 1)).1 ≠ PollResult.TimedOut :=
              fun h => hres h
            have heq : t + (m + 1 - 1) = (t + 1) + (m - 1) := by omega
            rw [heq]
            exact hnto hres2

/-- C4: the poller invokes the step immediately at elapsed time zero and
then once per interval: for any poll spec with `interval > 0` and
`timeout ≥ interval`, the executed ticks are exactly `0, 1, ..., n-1` for
some `n ≥ 1`, tick `k` occurring at elapsed time `k * interval < timeout`;
every tick before the last reports pending, and the run stops at the last
tick either because it converged or failed, or — on `TimedOut` — because
the last budgeted tick was still pending and the next tick would fall at or
beyond the timeout. -/
theorem poller_tick_schedule (interval timeout : Nat)
    (step : Nat → Bool × Option String) (hi : 0 < interval)
    (ht : interval ≤ timeout) :
    ∃ n, 0 < n ∧
      (poll interval timeout step).2 = List.range n ∧
      (∀ k, k < n → k * interval < timeout) ∧
      (∀ k, k + 1 < n → step k = (false, none)) ∧
      ((poll interval timeout step).1 = PollResult.TimedOut →
        step (n - 1) = (false, none) ∧ n = numTicks interval timeout ∧
        timeout ≤ n * interval) ∧
      ((poll interval timeout step).1 ≠ PollResult.TimedOut →
        ((step (n - 1)).2 ≠ none ∨ (step (n - 1)).1 = true)) := by
  have h0 : 0 < timeout := Nat.lt_of_lt_of_le hi ht
  have hN : 0 < numTicks interval timeout :=
    (lt_numTicks_iff interval timeout 0 hi).mpr (by simpa using h0)
  obtain ⟨m, hm0, hmle, htr, hpend, hto, hnto⟩ :=
    pollFrom_schedule step (numTicks interval timeout) 0 hN
  refine ⟨m, hm0, ?_, ?_, ?_, ?_, ?_⟩
  · unfold poll
    rw [htr]
    simp
  · intro k hk
    exact (lt_numTicks_iff interval timeout k hi).mp (Nat.lt_of_lt_of_le hk hmle)
  · intro k hk
    simpa using hpend k hk
  · intro hres
    obtain ⟨hm, hstep⟩ := hto hres
    refine ⟨by simpa using hstep, hm, ?_⟩
    rw [hm]
    exact timeout_le_numTicks_mul interval timeout hi
  · intro hres
    simpa using hnto hres

/-- Witness for C4: a one-tick budget whose step converges at once. -/
theorem poller_tick_schedule_witness :
    ∃ n, 0 < n ∧
      (poll 1 1 (fun _ => (true, (none : Option String)))).2 = List.range n ∧
      (∀ k, k < n → k * 1 < 1) ∧
      (∀ k, k + 1 < n →
        ((true : Bool), (none : Option String)) = (false, none)) ∧
      ((poll 1 1 (fun _ => (true, (none : Option String)))).1 = PollResult.TimedOut →
        ((true : Bool), (none : Option String)) = (false, none) ∧
        n = numTicks 1 1 ∧ 1 ≤ n * 1) ∧
      ((poll 1 1 (fun _ => (true, (none : Option String)))).1 ≠ PollResult.TimedOut →
        (((true : Bool), (none : Option String)).2 ≠ none ∨
          ((true : Bool), (none : Option String)).1 = true)) :=
  poller_tick_schedule 1 1 (fun _ => (true, none)) (by decide) (by decide)

end Framework
